import Mathlib

set_option maxRecDepth 100000
set_option maxHeartbeats 1000000

/-!
# Verification of the Kraken API client (`src/kraken_api.rs`)

A shallow embedding of the request-signing scheme and the response-envelope
decoder of the `kraken_api` crate, together with theorems settling the
specification's claims about them.

Conventions of the embedding:
* machine bytes and words are `Nat` with explicit reduction `% 2^8`, `% 2^32`,
  `% 2^64` where overflow matters;
* `HashMap` values are association lists carrying their (otherwise hidden)
  iteration order; map equality is permutation of the entry lists;
* fallible Rust code returns an explicit result type; a Rust `panic!`
  (e.g. `Option::unwrap` on `None`) is a distinguished `panic` outcome;
* `f64` values obtained from wire decimal strings are modelled exactly as
  reduced fractions (`F64`); no claim compares results of float arithmetic,
  only parse success and parsed decimal values.
-/

namespace KrakenApi

/-! ## Byte-level primitives

The `sha2`, `hmac` and `base64` crates used by `create_signature` are not part
of the repository; they are modelled here from their specifications
(FIPS 180-4 for SHA-256/SHA-512, RFC 2104 for HMAC, RFC 4648 for base64 with
the crate's standard alphabet and padding).  Bytes are `Nat` below 256. -/

/-- Most-significant-first base-256 digits: `bytesBE k n` is the `k`-byte
big-endian encoding of `n`. -/
def bytesBE : Nat → Nat → List Nat
  | 0, _ => []
  | k + 1, n => bytesBE k (n / 256) ++ [n % 256]

/-- UTF-8 encoding of one character. -/
def utf8Char (c : Char) : List Nat :=
  let n := c.toNat
  if n < 128 then [n]
  else if n < 2048 then [192 + n / 64, 128 + n % 64]
  else if n < 65536 then [224 + n / 4096, 128 + n / 64 % 64, 128 + n % 64]
  else [240 + n / 262144, 128 + n / 4096 % 64, 128 + n / 64 % 64, 128 + n % 64]

/-- UTF-8 bytes of a string (Rust's `str::as_bytes`). -/
def utf8 (s : String) : List Nat := (s.data.map utf8Char).flatten

/-- Split a list into consecutive chunks of `size` elements; `fuel` bounds the
recursion and is instantiated with the list length. -/
def chunksOf (size : Nat) : Nat → List Nat → List (List Nat)
  | 0, _ => []
  | _, [] => []
  | fuel + 1, l => l.take size :: chunksOf size fuel (l.drop size)

/-! ## SHA-256 (FIPS 180-4), words as `Nat` mod 2^32 -/

/-- SHA-256 round constants (decimal, FIPS 180-4 section 4.2.2). -/
def K256 : List Nat :=
  [1116352408, 1899447441, 3049323471, 3921009573, 961987163, 1508970993,
   2453635748, 2870763221, 3624381080, 310598401, 607225278, 1426881987,
   1925078388, 2162078206, 2614888103, 3248222580, 3835390401, 4022224774,
   264347078, 604807628, 770255983, 1249150122, 1555081692, 1996064986,
   2554220882, 2821834349, 2952996808, 3210313671, 3336571891, 3584528711,
   113926993, 338241895, 666307205, 773529912, 1294757372, 1396182291,
   1695183700, 1986661051, 2177026350, 2456956037, 2730485921, 2820302411,
   3259730800, 3345764771, 3516065817, 3600352804, 4094571909, 275423344,
   430227734, 506948616, 659060556, 883997877, 958139571, 1322822218,
   1537002063, 1747873779, 1955562222, 2024104815, 2227730452, 2361852424,
   2428436474, 2756734187, 3204031479, 3329325298]

/-- SHA-256 initial hash value (decimal, FIPS 180-4 section 5.3.3). -/
def IV256 : List Nat :=
  [1779033703, 3144134277, 1013904242, 2773480762,
   1359893119, 2600822924, 528734635, 1541459225]

/-- Rotate a 32-bit word right by `n`. -/
def rotr32 (n x : Nat) : Nat := ((x >>> n) ||| (x <<< (32 - n))) % 4294967296

def ch32 (e f g : Nat) : Nat := (e &&& f) ^^^ ((e ^^^ 4294967295) &&& g)

/-- The SHA majority function (bitwise, width-independent). -/
def maj (a b c : Nat) : Nat := (a &&& b) ^^^ (a &&& c) ^^^ (b &&& c)

def bsig0_32 (x : Nat) : Nat := rotr32 2 x ^^^ rotr32 13 x ^^^ rotr32 22 x

def bsig1_32 (x : Nat) : Nat := rotr32 6 x ^^^ rotr32 11 x ^^^ rotr32 25 x

def ssig0_32 (x : Nat) : Nat := rotr32 7 x ^^^ rotr32 18 x ^^^ (x >>> 3)

def ssig1_32 (x : Nat) : Nat := rotr32 17 x ^^^ rotr32 19 x ^^^ (x >>> 10)

/-- Big-endian 4-byte groups to 32-bit words. -/
def toWords32 : List Nat → List Nat
  | b0 :: b1 :: b2 :: b3 :: rest =>
      (b0 * 16777216 + b1 * 65536 + b2 * 256 + b3) :: toWords32 rest
  | _ => []

/-- Extend the 16 block words to the full message schedule (`fuel` = 48). -/
def extend32 : Nat → List Nat → List Nat
  | 0, w => w
  | fuel + 1, w =>
      let i := w.length
      let wi := (ssig1_32 (w.getD (i - 2) 0) + w.getD (i - 7) 0 +
                 ssig0_32 (w.getD (i - 15) 0) + w.getD (i - 16) 0) % 4294967296
      extend32 fuel (w ++ [wi])

/-- The eight working variables of the SHA compression functions. -/
structure Hash8 where
  a : Nat
  b : Nat
  c : Nat
  d : Nat
  e : Nat
  f : Nat
  g : Nat
  h : Nat
deriving Repr, DecidableEq

def listToHash8 (l : List Nat) : Hash8 :=
  { a := l.getD 0 0, b := l.getD 1 0, c := l.getD 2 0, d := l.getD 3 0,
    e := l.getD 4 0, f := l.getD 5 0, g := l.getD 6 0, h := l.getD 7 0 }

def hash8Add (m : Nat) (x y : Hash8) : Hash8 :=
  { a := (x.a + y.a) % m, b := (x.b + y.b) % m, c := (x.c + y.c) % m,
    d := (x.d + y.d) % m, e := (x.e + y.e) % m, f := (x.f + y.f) % m,
    g := (x.g + y.g) % m, h := (x.h + y.h) % m }

/-- Serialise the eight hash words, each as `width` big-endian bytes. -/
def hash8Bytes (width : Nat) (s : Hash8) : List Nat :=
  bytesBE width s.a ++ bytesBE width s.b ++ bytesBE width s.c ++ bytesBE width s.d ++
  bytesBE width s.e ++ bytesBE width s.f ++ bytesBE width s.g ++ bytesBE width s.h

/-- One SHA-256 round; `kw` is the round constant plus the schedule word. -/
def step32 (s : Hash8) (kw : Nat) : Hash8 :=
  let t1 := (s.h + bsig1_32 s.e + ch32 s.e s.f s.g + kw) % 4294967296
  let t2 := (bsig0_32 s.a + maj s.a s.b s.c) % 4294967296
  { a := (t1 + t2) % 4294967296, b := s.a, c := s.b, d := s.c,
    e := (s.d + t1) % 4294967296, f := s.e, g := s.f, h := s.g }

def compress256 (h0 : Hash8) (block : List Nat) : Hash8 :=
  let w := extend32 48 (toWords32 block)
  let kw := List.zipWith (fun k wi => k + wi) K256 w
  hash8Add 4294967296 h0 (kw.foldl step32 h0)

/-- SHA-256 padding: `0x80`, zeros to 56 mod 64, 8-byte big-endian bit length. -/
def pad256 (msg : List Nat) : List Nat :=
  let zeros := (64 + 56 - (msg.length + 1) % 64) % 64
  msg ++ [128] ++ List.replicate zeros 0 ++ bytesBE 8 (msg.length * 8)

/-- SHA-256 digest of a byte sequence (models the `sha2` crate's `Sha256`). -/
def sha256 (msg : List Nat) : List Nat :=
  let padded := pad256 msg
  hash8Bytes 4 ((chunksOf 64 padded.length padded).foldl compress256 (listToHash8 IV256))

/-! ## SHA-512 (FIPS 180-4), words as `Nat` mod 2^64 -/

/-- SHA-512 round constants (decimal, FIPS 180-4 section 4.2.3). -/
def K512 : List Nat :=
  [4794697086780616226, 8158064640168781261, 13096744586834688815,
   16840607885511220156, 4131703408338449720, 6480981068601479193,
   10538285296894168987, 12329834152419229976, 15566598209576043074,
   1334009975649890238, 2608012711638119052, 6128411473006802146,
   8268148722764581231, 9286055187155687089, 11230858885718282805,
   13951009754708518548, 16472876342353939154, 17275323862435702243,
   1135362057144423861, 2597628984639134821, 3308224258029322869,
   5365058923640841347, 6679025012923562964, 8573033837759648693,
   10970295158949994411, 12119686244451234320, 12683024718118986047,
   13788192230050041572, 14330467153632333762, 15395433587784984357,
   489312712824947311, 1452737877330783856, 2861767655752347644,
   3322285676063803686, 5560940570517711597, 5996557281743188959,
   7280758554555802590, 8532644243296465576, 9350256976987008742,
   10552545826968843579, 11727347734174303076, 12113106623233404929,
   14000437183269869457, 14369950271660146224, 15101387698204529176,
   15463397548674623760, 17586052441742319658, 1182934255886127544,
   1847814050463011016, 2177327727835720531, 2830643537854262169,
   3796741975233480872, 4115178125766777443, 5681478168544905931,
   6601373596472566643, 7507060721942968483, 8399075790359081724,
   8693463985226723168, 9568029438360202098, 10144078919501101548,
   10430055236837252648, 11840083180663258601, 13761210420658862357,
   14299343276471374635, 14566680578165727644, 15097957966210449927,
   16922976911328602910, 17689382322260857208, 500013540394364858,
   748580250866718886, 1242879168328830382, 1977374033974150939,
   2944078676154940804, 3659926193048069267, 4368137639120453308,
   4836135668995329356, 5532061633213252278, 6448918945643986474,
   6902733635092675308, 7801388544844847127]

/-- SHA-512 initial hash value (decimal, FIPS 180-4 section 5.3.5). -/
def IV512 : List Nat :=
  [7640891576956012808, 13503953896175478587, 4354685564936845355,
   11912009170470909681, 5840696475078001361, 11170449401992604703,
   2270897969802886507, 6620516959819538809]

/-- Rotate a 64-bit word right by `n`. -/
def rotr64 (n x : Nat) : Nat :=
  ((x >>> n) ||| (x <<< (64 - n))) % 18446744073709551616

def ch64 (e f g : Nat) : Nat := (e &&& f) ^^^ ((e ^^^ 18446744073709551615) &&& g)

def bsig0_64 (x : Nat) : Nat := rotr64 28 x ^^^ rotr64 34 x ^^^ rotr64 39 x

def bsig1_64 (x : Nat) : Nat := rotr64 14 x ^^^ rotr64 18 x ^^^ rotr64 41 x

def ssig0_64 (x : Nat) : Nat := rotr64 1 x ^^^ rotr64 8 x ^^^ (x >>> 7)

def ssig1_64 (x : Nat) : Nat := rotr64 19 x ^^^ rotr64 61 x ^^^ (x >>> 6)

/-- Big-endian 8-byte groups to 64-bit words. -/
def toWords64 : List Nat → List Nat
  | b0 :: b1 :: b2 :: b3 :: b4 :: b5 :: b6 :: b7 :: rest =>
      (((((((b0 * 256 + b1) * 256 + b2) * 256 + b3) * 256 + b4) * 256 + b5) * 256 + b6) * 256 + b7)
        :: toWords64 rest
  | _ => []

/-- Extend the 16 block words to the full message schedule (`fuel` = 64). -/
def extend64 : Nat → List Nat → List Nat
  | 0, w => w
  | fuel + 1, w =>
      let i := w.length
      let wi := (ssig1_64 (w.getD (i - 2) 0) + w.getD (i - 7) 0 +
                 ssig0_64 (w.getD (i - 15) 0) + w.getD (i - 16) 0) % 18446744073709551616
      extend64 fuel (w ++ [wi])

/-- One SHA-512 round; `kw` is the round constant plus the schedule word. -/
def step64 (s : Hash8) (kw : Nat) : Hash8 :=
  let t1 := (s.h + bsig1_64 s.e + ch64 s.e s.f s.g + kw) % 18446744073709551616
  let t2 := (bsig0_64 s.a + maj s.a s.b s.c) % 18446744073709551616
  { a := (t1 + t2) % 18446744073709551616, b := s.a, c := s.b, d := s.c,
    e := (s.d + t1) % 18446744073709551616, f := s.e, g := s.f, h := s.g }

def compress512 (h0 : Hash8) (block : List Nat) : Hash8 :=
  let w := extend64 64 (toWords64 block)
  let kw := List.zipWith (fun k wi => k + wi) K512 w
  hash8Add 18446744073709551616 h0 (kw.foldl step64 h0)

/-- SHA-512 padding: `0x80`, zeros to 112 mod 128, 16-byte big-endian bit length. -/
def pad512 (msg : List Nat) : List Nat :=
  let zeros := (128 + 112 - (msg.length + 1) % 128) % 128
  msg ++ [128] ++ List.replicate zeros 0 ++ bytesBE 16 (msg.length * 8)

/-- SHA-512 digest of a byte sequence (models the `sha2` crate's `Sha512`). -/
def sha512 (msg : List Nat) : List Nat :=
  let padded := pad512 msg
  hash8Bytes 8 ((chunksOf 128 padded.length padded).foldl compress512 (listToHash8 IV512))

/-- HMAC-SHA512 (RFC 2104; block size 128 bytes), models `Hmac<Sha512>` with a
variable-length key as used by `create_signature`. -/
def hmacSha512 (key msg : List Nat) : List Nat :=
  let k0 := if 128 < key.length then sha512 key else key
  let kpad := k0 ++ List.replicate (128 - k0.length) 0
  sha512 ((kpad.map (fun b => b ^^^ 92)) ++ sha512 ((kpad.map (fun b => b ^^^ 54)) ++ msg))

/-! ## Base64 (standard alphabet, `=` padding), models the `base64` crate's
`encode` and `decode` as called by `create_signature`. -/

/-- The standard-alphabet symbol for a 6-bit value. -/
def b64Char (n : Nat) : Char :=
  if n < 26 then Char.ofNat (65 + n)
  else if n < 52 then Char.ofNat (97 + (n - 26))
  else if n < 62 then Char.ofNat (48 + (n - 52))
  else if n = 62 then '+' else '/'

def base64EncodeCore : List Nat → List Char
  | [] => []
  | [b0] =>
      let n := b0 * 16
      [b64Char (n / 64), b64Char (n % 64), '=', '=']
  | [b0, b1] =>
      let n := (b0 * 256 + b1) * 4
      [b64Char (n / 4096), b64Char (n / 64 % 64), b64Char (n % 64), '=']
  | b0 :: b1 :: b2 :: rest =>
      let n := (b0 * 256 + b1) * 256 + b2
      b64Char (n / 262144) :: b64Char (n / 4096 % 64) :: b64Char (n / 64 % 64) ::
        b64Char (n % 64) :: base64EncodeCore rest

/-- `base64::encode`. -/
def base64Encode (bytes : List Nat) : String := String.mk (base64EncodeCore bytes)

/-- Equality of `Except` values is decidable componentwise. -/
def exceptDecEq {ε α : Type} [DecidableEq ε] [DecidableEq α] : DecidableEq (Except ε α)
  | .error e, .error e' =>
      if h : e = e' then .isTrue (by rw [h]) else .isFalse (by simp [h])
  | .error _, .ok _ => .isFalse (by simp)
  | .ok _, .error _ => .isFalse (by simp)
  | .ok a, .ok a' =>
      if h : a = a' then .isTrue (by rw [h]) else .isFalse (by simp [h])

instance {ε α : Type} [DecidableEq ε] [DecidableEq α] : DecidableEq (Except ε α) :=
  exceptDecEq

/-- The `base64` crate's `DecodeError`. -/
inductive Base64Error where
  | invalidByte (index : Nat) (byte : Nat)
  | invalidLength
  | invalidLastSymbol (index : Nat) (byte : Nat)
deriving Repr, DecidableEq

/-- The 6-bit value of a standard-alphabet symbol. -/
def b64Val (c : Char) : Option Nat :=
  if 'A' ≤ c ∧ c ≤ 'Z' then some (c.toNat - 65)
  else if 'a' ≤ c ∧ c ≤ 'z' then some (26 + (c.toNat - 97))
  else if '0' ≤ c ∧ c ≤ '9' then some (52 + (c.toNat - 48))
  else if c = '+' then some 62
  else if c = '/' then some 63
  else none

/-- Decode base64 symbols four at a time; `idx` is the position of the group's
first symbol, used in error values.  A final group may be padded with `=` or
left unpadded; non-zero trailing bits are rejected (the crate's default). -/
def base64DecodeCore : Nat → List Char → Except Base64Error (List Nat)
  | _, [] => .ok []
  | idx, [c0] =>
      match b64Val c0 with
      | none => .error (.invalidByte idx (utf8Char c0).headI)
      | some _ => .error .invalidLength
  | idx, [c0, c1] =>
      match b64Val c0, b64Val c1 with
      | none, _ => .error (.invalidByte idx (utf8Char c0).headI)
      | _, none => .error (.invalidByte (idx + 1) (utf8Char c1).headI)
      | some v0, some v1 =>
          if v1 % 16 = 0 then .ok [v0 * 4 + v1 / 16]
          else .error (.invalidLastSymbol (idx + 1) (utf8Char c1).headI)
  | idx, [c0, c1, c2] =>
      match b64Val c0, b64Val c1, b64Val c2 with
      | none, _, _ => .error (.invalidByte idx (utf8Char c0).headI)
      | _, none, _ => .error (.invalidByte (idx + 1) (utf8Char c1).headI)
      | _, _, none => .error (.invalidByte (idx + 2) (utf8Char c2).headI)
      | some v0, some v1, some v2 =>
          if v2 % 4 = 0 then .ok [v0 * 4 + v1 / 16, v1 % 16 * 16 + v2 / 4]
          else .error (.invalidLastSymbol (idx + 2) (utf8Char c2).headI)
  | idx, c0 :: c1 :: c2 :: c3 :: rest =>
      match b64Val c0, b64Val c1 with
      | none, _ => .error (.invalidByte idx (utf8Char c0).headI)
      | _, none => .error (.invalidByte (idx + 1) (utf8Char c1).headI)
      | some v0, some v1 =>
          if c2 = '=' ∧ c3 = '=' ∧ rest = [] then
            if v1 % 16 = 0 then .ok [v0 * 4 + v1 / 16]
            else .error (.invalidLastSymbol (idx + 1) (utf8Char c1).headI)
          else
            match b64Val c2 with
            | none => .error (.invalidByte (idx + 2) (utf8Char c2).headI)
            | some v2 =>
                if c3 = '=' ∧ rest = [] then
                  if v2 % 4 = 0 then .ok [v0 * 4 + v1 / 16, v1 % 16 * 16 + v2 / 4]
                  else .error (.invalidLastSymbol (idx + 2) (utf8Char c2).headI)
                else
                  match b64Val c3 with
                  | none => .error (.invalidByte (idx + 3) (utf8Char c3).headI)
                  | some v3 =>
                      match base64DecodeCore (idx + 4) rest with
                      | .error e => .error e
                      | .ok tail =>
                          .ok ((v0 * 4 + v1 / 16) :: (v1 % 16 * 16 + v2 / 4) ::
                               (v2 % 4 * 64 + v3) :: tail)

/-- `base64::decode`. -/
def base64Decode (s : String) : Except Base64Error (List Nat) :=
  base64DecodeCore 0 s.data

/-! ## JSON values and serde-style decoding -/

/-- An exact rational standing for a wire `f64`: numerator and denominator in
lowest terms (maintained by `mkF64`).  Kept apart from Mathlib's `Rat` so
that every operation reduces inside `decide`. -/
structure F64 where
  num : Int
  den : Nat
deriving Repr, DecidableEq

/-- Euclid's algorithm on explicit fuel (any fuel above the second argument
is enough, since it strictly decreases each step). -/
def gcdFuel : Nat → Nat → Nat → Nat
  | 0, a, _ => a
  | fuel + 1, a, b => if b = 0 then a else gcdFuel fuel b (a % b)

/-- The reduced fraction `n / d` (for the positive denominators produced by
decimal parsing; `d = 0` is unreachable and mapped to zero). -/
def mkF64 (n : Int) (d : Nat) : F64 :=
  if d = 0 then { num := 0, den := 1 }
  else
    let g := gcdFuel (d + 1) n.natAbs d
    { num := n / (g : Int), den := d / g }

/-- `serde_json::Value`, with numbers as exact rationals: a JSON integer
literal carries denominator 1 (serde only lets `u64` fields accept such
literals), and `f64` fields accept any number.  Duplicate keys inside one
object are not modelled (no envelope in this development has any). -/
inductive Json where
  | null
  | bool (b : Bool)
  | num (q : F64)
  | str (s : String)
  | arr (elems : List Json)
  | obj (fields : List (String × Json))

/-- A JSON number literal written as a fraction, e.g. `jnum 26 100` for the
wire literal `0.26`. -/
def jnum (n : Int) (d : Nat) : Json := .num (mkF64 n d)

/-- A JSON integer literal. -/
def jint (n : Int) : Json := .num (mkF64 n 1)

/-- The result of running a serde decoder over Rust code that may also abort:
`fail` is a recoverable `serde` error (an untagged enum tries its next
variant), `panic` is a process abort (`unwrap` on a parse failure). -/
inductive DResult (α : Type) where
  | ok (a : α)
  | fail (msg : String)
  | panic (msg : String)
deriving Repr, DecidableEq

def DResult.bind {α β : Type} : DResult α → (α → DResult β) → DResult β
  | .ok a, f => f a
  | .fail m, _ => .fail m
  | .panic m, _ => .panic m

def DResult.map {α β : Type} (f : α → β) : DResult α → DResult β
  | .ok a => .ok (f a)
  | .fail m => .fail m
  | .panic m => .panic m

def DResult.isOk {α : Type} : DResult α → Bool
  | .ok _ => true
  | _ => false

def DResult.isPanic {α : Type} : DResult α → Bool
  | .panic _ => true
  | _ => false

/-- Untagged-enum fallback: a recoverable failure tries the next candidate,
a success or a panic is final. -/
def DResult.orTry {α : Type} : DResult α → (Unit → DResult α) → DResult α
  | .ok a, _ => .ok a
  | .fail _, f => f ()
  | .panic m, _ => .panic m

/-! ### The string-to-float parser

Models `f64::from_str` on ordinary decimal/scientific literals, with the
value kept exact (the claims only use parse success and decoded decimal
values, never float rounding).  The special literals `inf`/`infinity`/`NaN`,
which Rust also accepts, are out of scope of this model and rejected. -/

/-- Split off leading ASCII digits. -/
def splitDigits : List Char → List Char × List Char
  | [] => ([], [])
  | c :: cs =>
      if '0' ≤ c ∧ c ≤ '9' then
        let (ds, r) := splitDigits cs
        (c :: ds, r)
      else ([], c :: cs)

def digitsVal (ds : List Char) : Nat :=
  ds.foldl (fun acc d => acc * 10 + (d.toNat - 48)) 0

/-- Parse the optional exponent suffix: `none` on a malformed tail,
`some none` when there is no tail, `some (some (neg, e))` for `e`/`E`,
an optional sign and digits. -/
def parseExponentPart : List Char → Option (Option (Bool × Nat))
  | [] => some none
  | e :: r =>
      if e = 'e' ∨ e = 'E' then
        let signedPart : Bool × List Char :=
          match r with
          | '+' :: r2 => (false, r2)
          | '-' :: r2 => (true, r2)
          | _ => (false, r)
        let (ds, rest) := splitDigits signedPart.2
        if ds.isEmpty ∨ ¬rest.isEmpty then none
        else some (some (signedPart.1, digitsVal ds))
      else none

def parseF64Core (cs : List Char) : Option F64 :=
  let signedPart : Int × List Char :=
    match cs with
    | '+' :: r => (1, r)
    | '-' :: r => (-1, r)
    | r => (1, r)
  let (ip, rest1) := splitDigits signedPart.2
  let mantissaPart : Option (Nat × Nat × List Char) :=
    match rest1 with
    | '.' :: r =>
        let (fp, rest2) := splitDigits r
        if ip.isEmpty ∧ fp.isEmpty then none
        else some (digitsVal ip * 10 ^ fp.length + digitsVal fp, fp.length, rest2)
    | rest2 => if ip.isEmpty then none else some (digitsVal ip, 0, rest2)
  match mantissaPart with
  | none => none
  | some (mant, flen, rest2) =>
      match parseExponentPart rest2 with
      | none => none
      | some none => some (mkF64 (signedPart.1 * mant) (10 ^ flen))
      | some (some (true, e)) => some (mkF64 (signedPart.1 * mant) (10 ^ flen * 10 ^ e))
      | some (some (false, e)) => some (mkF64 (signedPart.1 * mant * 10 ^ e) (10 ^ flen))

/-- `f64::from_str` (see `parseF64Core` for scope). -/
def parseF64 (s : String) : Option F64 := parseF64Core s.data

/-! ### The numeric-coercion deserializers of src/kraken_api.rs -/

/-- `from_f64_str` (line 99): borrow a string, parse it, and report a parse
failure as a recoverable serde error (`map_err(D::Error::custom)`). -/
def from_f64_str : Json → DResult F64
  | .str s =>
      match parseF64 s with
      | some q => .ok q
      | none => .fail ("invalid float literal " ++ s)
  | _ => .fail "invalid type: expected a borrowed string"

/-- `from_f64_option_str` (line 108): an absent (`null`) value is `None`; a
present string is parsed with `.parse().unwrap()`, so a parse failure aborts
the process instead of reporting a serde error. -/
def from_f64_option_str : Json → DResult (Option F64)
  | .null => .ok none
  | .str s =>
      match parseF64 s with
      | some q => .ok (some q)
      | none => .panic "called Result::unwrap on an Err value: ParseFloatError"
  | _ => .fail "invalid type: expected an optional borrowed string"

/-- Element decoder for `Vec<String>`. -/
def decodeStringList : List Json → DResult (List String)
  | [] => .ok []
  | .str s :: rest => (decodeStringList rest).map (s :: ·)
  | _ :: _ => .fail "invalid type: expected a string"

/-- Parse every string of a `Vec<String>` with `.parse().unwrap()`
(the `map` inside `from_f64_str_vec`). -/
def parseAllF64 : List String → DResult (List F64)
  | [] => .ok []
  | s :: rest =>
      match parseF64 s with
      | none => .panic "called Result::unwrap on an Err value: ParseFloatError"
      | some q => (parseAllF64 rest).map (q :: ·)

/-- `from_f64_str_vec` (line 128): deserialize a `Vec<String>`, then parse
each element with `.parse().unwrap()` — a parse failure aborts. -/
def from_f64_str_vec : Json → DResult (List F64)
  | .arr elems => (decodeStringList elems).bind parseAllF64
  | _ => .fail "invalid type: expected a sequence"

/-- serde decoder for `u64`: a non-negative integral JSON number below 2^64. -/
def decodeU64 : Json → DResult Nat
  | .num q =>
      if q.den = 1 ∧ 0 ≤ q.num ∧ q.num < 18446744073709551616 then .ok q.num.toNat
      else .fail "invalid value: expected u64"
  | _ => .fail "invalid type: expected u64"

/-- serde decoder for one `(String, String, u64)` wire tuple. -/
def decodeTuple3 : Json → DResult (String × String × Nat)
  | .arr [.str a, .str b, n] => (decodeU64 n).map (fun u => (a, b, u))
  | _ => .fail "invalid type: expected a tuple of size 3"

def decodeTuple3List : List Json → DResult (List (String × String × Nat))
  | [] => .ok []
  | j :: rest => (decodeTuple3 j).bind fun t => (decodeTuple3List rest).map (t :: ·)

/-- Parse the two string components of each tuple with `.parse().unwrap()`
(the `map` inside `from_tuple`). -/
def parseAllTuples : List (String × String × Nat) → DResult (List (F64 × F64 × Nat))
  | [] => .ok []
  | (a, b, n) :: rest =>
      match parseF64 a with
      | none => .panic "called Result::unwrap on an Err value: ParseFloatError"
      | some x =>
          match parseF64 b with
          | none => .panic "called Result::unwrap on an Err value: ParseFloatError"
          | some y => (parseAllTuples rest).map ((x, y, n) :: ·)

/-- `from_tuple` (line 138): deserialize `Vec<(String, String, u64)>`, then
parse the two strings of each tuple with `.parse().unwrap()`. -/
def from_tuple : Json → DResult (List (F64 × F64 × Nat))
  | .arr elems => (decodeTuple3List elems).bind parseAllTuples
  | _ => .fail "invalid type: expected a sequence"

/-! ### Generic serde decoders used by the derived `Deserialize` impls -/

def decodeString : Json → DResult String
  | .str s => .ok s
  | _ => .fail "invalid type: expected a string"

def decodeF64 : Json → DResult F64
  | .num q => .ok q
  | _ => .fail "invalid type: expected f64"

def decodeU64List : List Json → DResult (List Nat)
  | [] => .ok []
  | j :: rest => (decodeU64 j).bind fun n => (decodeU64List rest).map (n :: ·)

def decodeVecU64 : Json → DResult (List Nat)
  | .arr elems => decodeU64List elems
  | _ => .fail "invalid type: expected a sequence"

def decodeVecString : Json → DResult (List String)
  | .arr elems => decodeStringList elems
  | _ => .fail "invalid type: expected a sequence"

def decodeF64List : List Json → DResult (List F64)
  | [] => .ok []
  | j :: rest => (decodeF64 j).bind fun q => (decodeF64List rest).map (q :: ·)

def decodeVecF64 : Json → DResult (List F64)
  | .arr elems => decodeF64List elems
  | _ => .fail "invalid type: expected a sequence"

def decodeVecF64List : List Json → DResult (List (List F64))
  | [] => .ok []
  | j :: rest => (decodeVecF64 j).bind fun v => (decodeVecF64List rest).map (v :: ·)

def decodeVecVecF64 : Json → DResult (List (List F64))
  | .arr elems => decodeVecF64List elems
  | _ => .fail "invalid type: expected a sequence"

/-- First value bound to key `k` in a decoded JSON object. -/
def jLookup (fields : List (String × Json)) (k : String) : Option Json :=
  match fields.find? (fun p => p.1 == k) with
  | some p => some p.2
  | none => none

/-- A required struct field: missing is a recoverable serde error.  The
derived impls decode known fields and ignore unknown ones (no
`deny_unknown_fields`); this model reads them in declaration order. -/
def reqField {α : Type} (fields : List (String × Json)) (k : String)
    (dec : Json → DResult α) : DResult α :=
  match jLookup fields k with
  | none => .fail ("missing field " ++ k)
  | some j => dec j

/-- An `Option<T>` struct field: missing or `null` is `None`. -/
def optField {α : Type} (fields : List (String × Json)) (k : String)
    (dec : Json → DResult α) : DResult (Option α) :=
  match jLookup fields k with
  | none => .ok none
  | some .null => .ok none
  | some j => (dec j).map some

/-- A `#[serde(default)]` field with a `deserialize_with` decoder: missing
takes the default without running the decoder. -/
def defaultField {α : Type} (fields : List (String × Json)) (k : String) (dflt : α)
    (dec : Json → DResult α) : DResult α :=
  match jLookup fields k with
  | none => .ok dflt
  | some j => dec j

/-- Generic `HashMap<String, T>` decoder: every value of the object must
decode; the map is kept as an association list in wire order. -/
def decodeMapGo {α : Type} (dec : Json → DResult α) :
    List (String × Json) → DResult (List (String × α))
  | [] => .ok []
  | (k, v) :: rest => (dec v).bind fun a => (decodeMapGo dec rest).map ((k, a) :: ·)

def decodeMap {α : Type} (dec : Json → DResult α) : Json → DResult (List (String × α))
  | .obj fields => decodeMapGo dec fields
  | _ => .fail "invalid type: expected a map"

/-! ## The response data model (src/kraken_api.rs lines 151-388) -/

/-- `Asset` (line 176). -/
structure Asset where
  aclass : String
  altname : String
  decimals : Nat
  display_decimals : Nat
deriving Repr, DecidableEq

def decodeAsset : Json → DResult Asset
  | .obj fs =>
      (reqField fs "aclass" decodeString).bind fun aclass =>
      (reqField fs "altname" decodeString).bind fun altname =>
      (reqField fs "decimals" decodeU64).bind fun decimals =>
      (reqField fs "display_decimals" decodeU64).map fun display_decimals =>
        { aclass, altname, decimals, display_decimals }
  | _ => .fail "invalid type: expected struct Asset"

/-- `AssetPairInfo` (line 192); `ordermin` is `#[serde(default)]` with
`from_f64_option_str`. -/
structure AssetPairInfo where
  altname : String
  wsname : Option String
  aclass_base : String
  base : String
  aclass_quote : String
  quote : String
  lot : String
  pair_decimals : Nat
  lot_decimals : Nat
  lot_multiplier : Nat
  leverage_buy : List Nat
  leverage_sell : List Nat
  fees : List (List F64)
  fees_maker : Option (List (List F64))
  fee_volume_currency : String
  margin_call : Nat
  margin_stop : Nat
  ordermin : Option F64
deriving Repr, DecidableEq

def decodeAssetPairInfo : Json → DResult AssetPairInfo
  | .obj fs =>
      (reqField fs "altname" decodeString).bind fun altname =>
      (optField fs "wsname" decodeString).bind fun wsname =>
      (reqField fs "aclass_base" decodeString).bind fun aclass_base =>
      (reqField fs "base" decodeString).bind fun base =>
      (reqField fs "aclass_quote" decodeString).bind fun aclass_quote =>
      (reqField fs "quote" decodeString).bind fun quote =>
      (reqField fs "lot" decodeString).bind fun lot =>
      (reqField fs "pair_decimals" decodeU64).bind fun pair_decimals =>
      (reqField fs "lot_decimals" decodeU64).bind fun lot_decimals =>
      (reqField fs "lot_multiplier" decodeU64).bind fun lot_multiplier =>
      (reqField fs "leverage_buy" decodeVecU64).bind fun leverage_buy =>
      (reqField fs "leverage_sell" decodeVecU64).bind fun leverage_sell =>
      (reqField fs "fees" decodeVecVecF64).bind fun fees =>
      (optField fs "fees_maker" decodeVecVecF64).bind fun fees_maker =>
      (reqField fs "fee_volume_currency" decodeString).bind fun fee_volume_currency =>
      (reqField fs "margin_call" decodeU64).bind fun margin_call =>
      (reqField fs "margin_stop" decodeU64).bind fun margin_stop =>
      (defaultField fs "ordermin" none from_f64_option_str).map fun ordermin =>
        { altname, wsname, aclass_base, base, aclass_quote, quote, lot, pair_decimals,
          lot_decimals, lot_multiplier, leverage_buy, leverage_sell, fees, fees_maker,
          fee_volume_currency, margin_call, margin_stop, ordermin }
  | _ => .fail "invalid type: expected struct AssetPairInfo"

/-- `AssetPairFees` (line 216). -/
structure AssetPairFees where
  fees : List (List F64)
  fee_volume_currency : String
deriving Repr, DecidableEq

def decodeAssetPairFees : Json → DResult AssetPairFees
  | .obj fs =>
      (reqField fs "fees" decodeVecVecF64).bind fun fees =>
      (reqField fs "fee_volume_currency" decodeString).map fun fee_volume_currency =>
        { fees, fee_volume_currency }
  | _ => .fail "invalid type: expected struct AssetPairFees"

/-- `AssetPairMargin` (line 222). -/
structure AssetPairMargin where
  margin_call : Nat
  margin_level : Nat
deriving Repr, DecidableEq

def decodeAssetPairMargin : Json → DResult AssetPairMargin
  | .obj fs =>
      (reqField fs "margin_call" decodeU64).bind fun margin_call =>
      (reqField fs "margin_level" decodeU64).map fun margin_level =>
        { margin_call, margin_level }
  | _ => .fail "invalid type: expected struct AssetPairMargin"

/-- `AssetPairs` (line 184): an untagged enum whose candidates are tried in
declaration order, first structural match wins. -/
inductive AssetPairs where
  | Info (pairs : List (String × AssetPairInfo))
  | Fees (pairs : List (String × AssetPairFees))
  | Margin (pairs : List (String × AssetPairMargin))
deriving Repr, DecidableEq

def decodeAssetPairs (j : Json) : DResult AssetPairs :=
  ((decodeMap decodeAssetPairInfo j).map AssetPairs.Info).orTry fun _ =>
  ((decodeMap decodeAssetPairFees j).map AssetPairs.Fees).orTry fun _ =>
  ((decodeMap decodeAssetPairMargin j).map AssetPairs.Margin).orTry fun _ =>
  .fail "data did not match any variant of untagged enum AssetPairs"

/-- `Ticker` (line 228). -/
structure Ticker where
  a : List F64
  b : List F64
  c : List F64
  v : List F64
  p : List F64
  t : List Nat
  l : List F64
  h : List F64
  o : F64
deriving Repr, DecidableEq

def decodeTicker : Json → DResult Ticker
  | .obj fs =>
      (reqField fs "a" from_f64_str_vec).bind fun a =>
      (reqField fs "b" from_f64_str_vec).bind fun b =>
      (reqField fs "c" from_f64_str_vec).bind fun c =>
      (reqField fs "v" from_f64_str_vec).bind fun v =>
      (reqField fs "p" from_f64_str_vec).bind fun p =>
      (reqField fs "t" decodeVecU64).bind fun t =>
      (reqField fs "l" from_f64_str_vec).bind fun l =>
      (reqField fs "h" from_f64_str_vec).bind fun h =>
      (reqField fs "o" from_f64_str).map fun o =>
        { a, b, c, v, p, t, l, h, o }
  | _ => .fail "invalid type: expected struct Ticker"

/-- `OrderBook` (line 258). -/
structure OrderBook where
  asks : List (F64 × F64 × Nat)
  bids : List (F64 × F64 × Nat)
deriving Repr, DecidableEq

def decodeOrderBook : Json → DResult OrderBook
  | .obj fs =>
      (reqField fs "asks" from_tuple).bind fun asks =>
      (reqField fs "bids" from_tuple).map fun bids =>
        { asks, bids }
  | _ => .fail "invalid type: expected struct OrderBook"

/-- `TradeBalance` (line 266); `ml` is `#[serde(default)]` with
`from_f64_option_str`. -/
structure TradeBalance where
  eb : F64
  tb : F64
  m : F64
  n : F64
  c : F64
  v : F64
  e : F64
  mf : F64
  ml : Option F64
deriving Repr, DecidableEq

def decodeTradeBalance : Json → DResult TradeBalance
  | .obj fs =>
      (reqField fs "eb" from_f64_str).bind fun eb =>
      (reqField fs "tb" from_f64_str).bind fun tb =>
      (reqField fs "m" from_f64_str).bind fun m =>
      (reqField fs "n" from_f64_str).bind fun n =>
      (reqField fs "c" from_f64_str).bind fun c =>
      (reqField fs "v" from_f64_str).bind fun v =>
      (reqField fs "e" from_f64_str).bind fun e =>
      (reqField fs "mf" from_f64_str).bind fun mf =>
      (defaultField fs "ml" none from_f64_option_str).map fun ml =>
        { eb, tb, m, n, c, v, e, mf, ml }
  | _ => .fail "invalid type: expected struct TradeBalance"

/-- `OpenOrderDescription` (line 355); the wire key of `kind` is `type`. -/
structure OpenOrderDescription where
  pair : String
  kind : String
  ordertype : String
  price : F64
  price2 : F64
  leverage : String
  order : String
  close : String
deriving Repr, DecidableEq

def decodeOpenOrderDescription : Json → DResult OpenOrderDescription
  | .obj fs =>
      (reqField fs "pair" decodeString).bind fun pair =>
      (reqField fs "type" decodeString).bind fun kind =>
      (reqField fs "ordertype" decodeString).bind fun ordertype =>
      (reqField fs "price" from_f64_str).bind fun price =>
      (reqField fs "price2" from_f64_str).bind fun price2 =>
      (reqField fs "leverage" decodeString).bind fun leverage =>
      (reqField fs "order" decodeString).bind fun order =>
      (reqField fs "close" decodeString).map fun close =>
        { pair, kind, ordertype, price, price2, leverage, order, close }
  | _ => .fail "invalid type: expected struct OpenOrderDescription"

/-- `OpenOrder` (line 298). -/
structure OpenOrder where
  refid : Option String
  userref : Nat
  status : String
  opentm : F64
  starttm : F64
  expiretm : F64
  descr : OpenOrderDescription
  vol : F64
  vol_exec : F64
  cost : F64
  fee : F64
  price : F64
  stopprice : F64
  limitprice : F64
  misc : String
  oflags : String
  trades : Option (List String)
deriving Repr, DecidableEq

def decodeOpenOrder : Json → DResult OpenOrder
  | .obj fs =>
      (optField fs "refid" decodeString).bind fun refid =>
      (reqField fs "userref" decodeU64).bind fun userref =>
      (reqField fs "status" decodeString).bind fun status =>
      (reqField fs "opentm" decodeF64).bind fun opentm =>
      (reqField fs "starttm" decodeF64).bind fun starttm =>
      (reqField fs "expiretm" decodeF64).bind fun expiretm =>
      (reqField fs "descr" decodeOpenOrderDescription).bind fun descr =>
      (reqField fs "vol" from_f64_str).bind fun vol =>
      (reqField fs "vol_exec" from_f64_str).bind fun vol_exec =>
      (reqField fs "cost" from_f64_str).bind fun cost =>
      (reqField fs "fee" from_f64_str).bind fun fee =>
      (reqField fs "price" from_f64_str).bind fun price =>
      (reqField fs "stopprice" from_f64_str).bind fun stopprice =>
      (reqField fs "limitprice" from_f64_str).bind fun limitprice =>
      (reqField fs "misc" decodeString).bind fun misc =>
      (reqField fs "oflags" decodeString).bind fun oflags =>
      (optField fs "trades" decodeVecString).map fun trades =>
        { refid, userref, status, opentm, starttm, expiretm, descr, vol, vol_exec,
          cost, fee, price, stopprice, limitprice, misc, oflags, trades }
  | _ => .fail "invalid type: expected struct OpenOrder"

/-- `Responses` (line 163): the untagged result payload; candidates are tried
in declaration order.  The `OpenOrder` variant's map sits under the wire key
`open` (a Lean keyword, hence the binder name `opn`). -/
inductive Responses where
  | Assets (m : List (String × Asset))
  | AssetPairs (p : AssetPairs)
  | Ticker (m : List (String × Ticker))
  | OrderBook (m : List (String × OrderBook))
  | TradeBalance (t : TradeBalance)
  | Balance (m : List (String × String))
  | OpenOrder (opn : List (String × OpenOrder))
deriving Repr, DecidableEq

/-- The struct variant `Responses::OpenOrder { open }`: an object with the
field `open` holding the order map. -/
def decodeOpenOrderVariant : Json → DResult Responses
  | .obj fs => (reqField fs "open" (decodeMap decodeOpenOrder)).map Responses.OpenOrder
  | _ => .fail "invalid type: expected a map"

def decodeResponses (j : Json) : DResult Responses :=
  ((decodeMap decodeAsset j).map Responses.Assets).orTry fun _ =>
  ((decodeAssetPairs j).map Responses.AssetPairs).orTry fun _ =>
  ((decodeMap decodeTicker j).map Responses.Ticker).orTry fun _ =>
  ((decodeMap decodeOrderBook j).map Responses.OrderBook).orTry fun _ =>
  ((decodeTradeBalance j).map Responses.TradeBalance).orTry fun _ =>
  ((decodeMap decodeString j).map Responses.Balance).orTry fun _ =>
  (decodeOpenOrderVariant j).orTry fun _ =>
  .fail "data did not match any variant of untagged enum Responses"

/-- `KrakenResponse` (line 157): the `error`/`result` envelope. -/
structure KrakenResponse where
  error : List String
  result : Option Responses
deriving Repr, DecidableEq

def decodeKrakenResponse : Json → DResult KrakenResponse
  | .obj fs =>
      (reqField fs "error" decodeVecString).bind fun error =>
      (optField fs "result" decodeResponses).map fun result =>
        { error, result }
  | _ => .fail "invalid type: expected struct KrakenResponse"

/-! ## Errors, outcomes and the endpoint methods -/

/-- `Errors` (line 46); `Request` carries the transport error's message. -/
inductive Errors where
  | Request (msg : String)
  | Kraken (msg : String)
  | Decode (e : Base64Error)
  | InvalidFormat
deriving Repr, DecidableEq

/-- The observable outcome of running repository code that returns
`Result<α, Errors>` but may also abort: `panic` models a Rust `panic`
(`unwrap` on `None`). -/
inductive Outcome (α : Type) where
  | ok (a : α)
  | err (e : Errors)
  | panic (msg : String)
deriving Repr, DecidableEq

def Outcome.map {α β : Type} (f : α → β) : Outcome α → Outcome β
  | .ok a => .ok (f a)
  | .err e => .err e
  | .panic m => .panic m

/-- Each `Kraken` endpoint method, after the HTTP exchange, runs the same
three steps on the decoded envelope (e.g. lines 426-434 for `assets`):
report non-empty `error` joined by single spaces, `unwrap()` the result
(a panic when it is `None`), and match the expected payload variant.
`extract` is the per-endpoint `match` arm. -/
def handleResponse {α : Type} (extract : Responses → Option α)
    (response : KrakenResponse) : Outcome α :=
  if response.error.length ≠ 0 then
    .err (.Kraken (String.intercalate " " response.error))
  else
    match response.result with
    | none => .panic "called Option::unwrap on a None value"
    | some r =>
        match extract r with
        | some a => .ok a
        | none => .err .InvalidFormat

/-- `Kraken::assets` (line 422), from the decoded envelope on. -/
def Kraken.assets (response : KrakenResponse) : Outcome (List (String × Asset)) :=
  handleResponse (fun r => match r with | .Assets m => some m | _ => none) response

/-- `Kraken::asset_pairs` (line 437), from the decoded envelope on. -/
def Kraken.asset_pairs (response : KrakenResponse) : Outcome AssetPairs :=
  handleResponse (fun r => match r with | .AssetPairs p => some p | _ => none) response

/-- `Kraken::ticker` (line 452), from the decoded envelope on. -/
def Kraken.ticker (response : KrakenResponse) : Outcome (List (String × Ticker)) :=
  handleResponse (fun r => match r with | .Ticker m => some m | _ => none) response

/-- `Kraken::order_book` (line 467), from the decoded envelope on. -/
def Kraken.order_book (response : KrakenResponse) : Outcome (List (String × OrderBook)) :=
  handleResponse (fun r => match r with | .OrderBook m => some m | _ => none) response

/-- `Kraken::account_balance` (line 482), from the decoded envelope on. -/
def Kraken.account_balance (response : KrakenResponse) : Outcome (List (String × String)) :=
  handleResponse (fun r => match r with | .Balance m => some m | _ => none) response

/-- `Kraken::trade_balance` (line 497), from the decoded envelope on. -/
def Kraken.trade_balance (response : KrakenResponse) : Outcome TradeBalance :=
  handleResponse (fun r => match r with | .TradeBalance t => some t | _ => none) response

/-- `Kraken::open_orders` (line 512), from the decoded envelope on: the match
arm `Responses::OpenOrder { open } => Ok(open)` returns the map under the
wrapper key directly. -/
def Kraken.open_orders (response : KrakenResponse) : Outcome (List (String × OpenOrder)) :=
  handleResponse (fun r => match r with | .OpenOrder opn => some opn | _ => none) response

/-! ## The request signer (src/kraken_api.rs lines 528-580) -/

/-- `HashMap::get` on the association-list model of the parameter map. -/
def hmGet (l : List (String × String)) (k : String) : Option String :=
  match l with
  | [] => none
  | (k', v) :: rest => if k = k' then some v else hmGet rest k

/-- `HashMap::insert` on the model: replace the value in place when the key is
already bound, otherwise add the entry. -/
def hmInsert (l : List (String × String)) (k v : String) : List (String × String) :=
  if l.any (fun p => p.1 == k) then l.map (fun p => if p.1 == k then (k, v) else p)
  else l ++ [(k, v)]

def hexUpper (n : Nat) : Char :=
  if n < 10 then Char.ofNat (48 + n) else Char.ofNat (55 + n)

/-- Byte-level escaping of `form_urlencoded::Serializer::append_pair` (also
used by `serde_urlencoded` for the POST body): ASCII alphanumerics and
`*`, `-`, `.`, `_` unchanged, space to `+`, every other byte `%XX`. -/
def formByte (b : Nat) : List Char :=
  if b = 32 then ['+']
  else if (48 ≤ b ∧ b ≤ 57) ∨ (65 ≤ b ∧ b ≤ 90) ∨ (97 ≤ b ∧ b ≤ 122) ∨
          b = 42 ∨ b = 45 ∨ b = 46 ∨ b = 95 then [Char.ofNat b]
  else ['%', hexUpper (b / 16), hexUpper (b % 16)]

def formEncodeStr (s : String) : String := String.mk (((utf8 s).map formByte).flatten)

def formUrlEncodePair (k v : String) : String := formEncodeStr k ++ "=" ++ formEncodeStr v

/-- The filter of `create_signature`'s serializer loop: only the `nonce` and
`otp` entries go into the signed body string. -/
def isBodyParam (p : String × String) : Bool := p.1 == "nonce" || p.1 == "otp"

/-- The body string built inside `create_signature` (lines 563-569): the
`nonce` and `otp` entries of the map, url-encoded in the map's iteration
order, joined by `&`. -/
def encodedParams (params : List (String × String)) : String :=
  String.intercalate "&"
    ((params.filter isBodyParam).map (fun p => formUrlEncodePair p.1 p.2))

/-- Drop everything up to and including the first `://`. -/
def dropScheme : List Char → List Char
  | ':' :: '/' :: '/' :: r => r
  | [] => []
  | _ :: r => dropScheme r

/-- Everything from the first `/` on, or `/` when there is none. -/
def pathFrom : List Char → List Char
  | [] => ['/']
  | '/' :: r => '/' :: r
  | _ :: r => pathFrom r

/-- Models `Url::parse(url).unwrap().path()` for the absolute http(s) URLs the
client builds (no query or fragment): everything from the first `/` after the
scheme-and-authority part, or `/` when the authority is not followed by one. -/
def urlPath (url : String) : String := String.mk (pathFrom (dropScheme url.data))

/-- `create_signature` (line 555): look up the nonce (`unwrap`: a missing
nonce panics), base64-decode the secret (`?`: a bad secret is
`Errors::Decode`), then base64-encode
HMAC-SHA512(key = decoded secret, message = path bytes ++ SHA-256(nonce
string ++ encoded body params)). -/
def create_signature (url : String) (params : List (String × String))
    (secret : String) : Outcome String :=
  match hmGet params "nonce" with
  | none => .panic "called Option::unwrap on a None value"
  | some nonce =>
      match base64Decode secret with
      | .error e => .err (.Decode e)
      | .ok secret64 =>
          let path := urlPath url
          let encoded := encodedParams params
          let sha := sha256 (utf8 (nonce ++ encoded))
          .ok (base64Encode (hmacSha512 secret64 (utf8 path ++ sha)))

/-- `Credentials` (line 88). -/
structure Credentials where
  api_key : String
  secret : String

/-- `PrivatePostData` (line 151): the POST body; `otp` is always `None` in
`private_request`. -/
structure PrivatePostData where
  nonce : String
  otp : Option String
deriving Repr, DecidableEq

/-- `serde_urlencoded` serialization of `PrivatePostData` as sent by
`RequestBuilder::form`: fields in declaration order, a `None` otp skipped. -/
def serializeForm (d : PrivatePostData) : String :=
  formUrlEncodePair "nonce" d.nonce ++
    (match d.otp with
     | none => ""
     | some o => "&" ++ formUrlEncodePair "otp" o)

/-- The outward-visible parts of the POST request `private_request` builds:
URL, the two authentication headers, and the form body.  (Header-value
well-formedness checks of `HeaderValue::from_str` are not modelled; every
value used here is visible ASCII.) -/
structure SignedRequest where
  url : String
  api_key : String
  api_sign : String
  body : String
deriving Repr, DecidableEq

/-- `Kraken::private_request` (line 528): insert the generated wall-clock
nonce (here an explicit argument), let caller parameters overwrite it, sign,
and build the POST whose body is `PrivatePostData` with the generated nonce
and `otp: None`.  The HTTP send is left to the transport. -/
def private_request (nonce : String) (credentials : Credentials) (url : String)
    (params : List (String × String)) : Outcome SignedRequest :=
  let query_params := params.foldl (fun acc p => hmInsert acc p.1 p.2) [("nonce", nonce)]
  match create_signature url query_params credentials.secret with
  | .panic m => .panic m
  | .err e => .err e
  | .ok signature =>
      .ok { url := url, api_key := credentials.api_key, api_sign := signature,
            body := serializeForm { nonce := nonce, otp := none } }

/-! ## Shape observers -/

/-- The candidate an `AssetPairs` value was resolved to. -/
def apVariantName : AssetPairs → String
  | .Info _ => "Info"
  | .Fees _ => "Fees"
  | .Margin _ => "Margin"

/-- A pair entry carrying exactly the fields of the `Fees` shape: the pair
name, a JSON value for `fees` and the `fee_volume_currency` string. -/
def feesPairJson (p : String × Json × String) : String × Json :=
  (p.1, Json.obj [("fees", p.2.1), ("fee_volume_currency", Json.str p.2.2)])

/-! ## Concrete wire fixtures (values from the repository's test and the
exchange's documented payloads) -/

def testUrl : String := "https://api.kraken.com/0/private/Balance"

def testSecret : String :=
  "NZTRqjFqtb7Jbg5Yx7iRelcfCxiB7pL1FvvK3tokScThZDl0z7oi/m5aHhtKcUp2dIpT8qIbaMfp01Glzw24Ag=="

def testNonce : String := "1603733933254000"

/-- The signature `test_create_signature` expects for `testNonce`. -/
def testSignature : String :=
  "EAIoQ9XIntOdpiFHnt0UTmwqYZAmeeYFR/KwrhRqR1O6dLLNsT8I0R2GJ2p7M9OICQAol6kL9RF49l/aJaOKKw=="

def testCredentials : Credentials := { api_key := "test-api-key", secret := testSecret }

/-- An `AssetPairs` value carrying exactly the `Fees` field set. -/
def feesVal : Json :=
  .obj [("fees", .arr [.arr [jint 0, jnum 26 100]]), ("fee_volume_currency", .str "ZUSD")]

/-- An `AssetPairs` value carrying exactly the `Margin` field set
(spec Scenario 3). -/
def marginVal : Json := .obj [("margin_call", jint 80), ("margin_level", jint 140)]

/-- An `AssetPairs` value carrying the full `Info` field set — which includes
`fees` and `fee_volume_currency`, so the `Fees` candidate accepts it too. -/
def infoVal : Json :=
  .obj [("altname", .str "XRPUSD"), ("wsname", .str "XRP/USD"),
        ("aclass_base", .str "currency"), ("base", .str "XXRP"),
        ("aclass_quote", .str "currency"), ("quote", .str "ZUSD"),
        ("lot", .str "unit"), ("pair_decimals", jint 5), ("lot_decimals", jint 8),
        ("lot_multiplier", jint 1), ("leverage_buy", .arr [jint 2, jint 3]),
        ("leverage_sell", .arr [jint 2, jint 3]),
        ("fees", .arr [.arr [jint 0, jnum 26 100]]),
        ("fees_maker", .arr [.arr [jint 0, jnum 16 100]]),
        ("fee_volume_currency", .str "ZUSD"), ("margin_call", jint 80),
        ("margin_stop", jint 40), ("ordermin", .str "30")]

/-- A complete open-order wire object (all required `OpenOrder` fields). -/
def testOrderJson : Json :=
  .obj [("refid", .null), ("userref", jint 0), ("status", .str "open"),
        ("opentm", jnum 16031111005 10), ("starttm", jint 0), ("expiretm", jint 0),
        ("descr", .obj [("pair", .str "XRPUSD"), ("type", .str "buy"),
                        ("ordertype", .str "limit"), ("price", .str "0.20"),
                        ("price2", .str "0"), ("leverage", .str "none"),
                        ("order", .str "buy 100.00000000 XRPUSD @ limit 0.20"),
                        ("close", .str "")]),
        ("vol", .str "100.00000000"), ("vol_exec", .str "0.00000000"),
        ("cost", .str "0.00000"), ("fee", .str "0.00000"), ("price", .str "0.00000"),
        ("stopprice", .str "0.00000"), ("limitprice", .str "0.00000"),
        ("misc", .str ""), ("oflags", .str "fciq")]

/-- The decoded form of `testOrderJson`. -/
def testOrder : OpenOrder :=
  { refid := none, userref := 0, status := "open",
    opentm := { num := 3206222201, den := 2 }, starttm := { num := 0, den := 1 },
    expiretm := { num := 0, den := 1 },
    descr := { pair := "XRPUSD", kind := "buy", ordertype := "limit",
               price := { num := 1, den := 5 }, price2 := { num := 0, den := 1 },
               leverage := "none", order := "buy 100.00000000 XRPUSD @ limit 0.20",
               close := "" },
    vol := { num := 100, den := 1 }, vol_exec := { num := 0, den := 1 },
    cost := { num := 0, den := 1 }, fee := { num := 0, den := 1 },
    price := { num := 0, den := 1 }, stopprice := { num := 0, den := 1 },
    limitprice := { num := 0, den := 1 }, misc := "", oflags := "fciq", trades := none }

/-- Spec Scenario 4: an `OpenOrders` envelope whose payload is wrapped under
the `open` key. -/
def openOrdersEnvelope : Json :=
  .obj [("error", .arr []), ("result", .obj [("open", .obj [("OID1", testOrderJson)])])]

/-- Spec Scenario 2: an envelope with a non-empty `error` list and a null
`result`. -/
def errorEnvelope : Json :=
  .obj [("error", .arr [.str "EGeneral:Invalid arguments"]), ("result", .null)]

/-- An envelope with empty `error` and a null `result` (the contract
violation of C3). -/
def nullResultEnvelope : Json := .obj [("error", .arr []), ("result", .null)]

/-- An envelope with empty `error` and an empty-object `result` (C10). -/
def emptyObjectEnvelope : Json := .obj [("error", .arr []), ("result", .obj [])]

/-! ## Supporting lemmas about the parameter-map model -/

/-- Map lookup only depends on the entry set when the keys are distinct:
reordering the (hidden) iteration order never changes `HashMap::get`. -/
theorem hmGet_perm {l1 l2 : List (String × String)} (k : String)
    (hperm : l1.Perm l2) (hnodup : (l1.map Prod.fst).Nodup) :
    hmGet l1 k = hmGet l2 k := by
  induction hperm with
  | nil => rfl
  | cons x _ ih =>
      obtain ⟨a, b⟩ := x
      simp only [List.map_cons, List.nodup_cons] at hnodup
      by_cases hk : k = a
      · simp [hmGet, hk]
      · simp [hmGet, hk, ih hnodup.2]
  | swap x y l =>
      obtain ⟨a, b⟩ := x
      obtain ⟨c, d⟩ := y
      simp only [List.map_cons, List.nodup_cons, List.mem_cons] at hnodup
      have hca : c ≠ a := fun h => hnodup.1 (Or.inl h)
      by_cases hk1 : k = c
      · by_cases hk2 : k = a
        · exact absurd (hk1.symm.trans hk2) hca
        · simp [hmGet, hk1, hk2, hca]
      · by_cases hk2 : k = a
        · simp [hmGet, hk1, hk2, hca.symm]
        · simp [hmGet, hk1, hk2]
  | trans h1 _ ih1 ih2 =>
      exact (ih1 hnodup).trans (ih2 ((h1.map Prod.fst).nodup hnodup))

/-- The overwrite function of `hmInsert`, with its key test in propositional
form. -/
theorem replace_fn_eq (k v : String) :
    (fun p : String × String => if p.1 == k then (k, v) else p) =
      (fun p : String × String => if p.1 = k then (k, v) else p) := by
  funext p
  by_cases h : p.1 = k <;> simp [h]

theorem hmGet_append_of_some {l1 l2 : List (String × String)} {k v : String}
    (h : hmGet l1 k = some v) : hmGet (l1 ++ l2) k = some v := by
  induction l1 with
  | nil => exact absurd h (by simp [hmGet])
  | cons p t ih =>
      obtain ⟨a, b⟩ := p
      by_cases hk : k = a
      · simpa [hmGet, hk] using h
      · simp only [hmGet, if_neg hk] at h
        simp only [List.cons_append, hmGet, if_neg hk]
        exact ih h

theorem hmGet_append_single_of_ne {l : List (String × String)} {k k0 v : String}
    (hne : k0 ≠ k) : hmGet (l ++ [(k, v)]) k0 = hmGet l k0 := by
  induction l with
  | nil => simp [hmGet, hne]
  | cons p t ih =>
      obtain ⟨a, b⟩ := p
      by_cases hk : k0 = a <;> simp [hmGet, hk, ih]

/-- Looking up the replaced key after `HashMap::insert`'s overwrite branch. -/
theorem hmGet_map_replace_self (l : List (String × String)) (k v : String) :
    hmGet (l.map (fun p => if p.1 == k then (k, v) else p)) k =
      (hmGet l k).map (fun _ => v) := by
  rw [replace_fn_eq]
  induction l with
  | nil => rfl
  | cons p t ih =>
      obtain ⟨a, b⟩ := p
      simp only [List.map_cons]
      by_cases hak : a = k
      · subst hak
        rw [if_pos rfl]
        simp [hmGet]
      · rw [if_neg hak]
        simp [hmGet, Ne.symm hak, ih]

/-- Looking up a different key after `HashMap::insert`'s overwrite branch. -/
theorem hmGet_map_replace_other (l : List (String × String)) (k v k0 : String)
    (hne : k0 ≠ k) :
    hmGet (l.map (fun p => if p.1 == k then (k, v) else p)) k0 = hmGet l k0 := by
  rw [replace_fn_eq]
  induction l with
  | nil => rfl
  | cons p t ih =>
      obtain ⟨a, b⟩ := p
      simp only [List.map_cons]
      by_cases hak : a = k
      · subst hak
        rw [if_pos rfl]
        simp [hmGet, hne, ih]
      · rw [if_neg hak]
        simp [hmGet, ih]

/-- `HashMap::insert` never removes a key that was present. -/
theorem hmGet_hmInsert_isSome {l : List (String × String)} {k0 v0 : String} (k v : String)
    (h : hmGet l k0 = some v0) : ∃ w, hmGet (hmInsert l k v) k0 = some w := by
  unfold hmInsert
  by_cases hany : (l.any fun p => p.1 == k) = true
  · simp only [hany, if_true]
    by_cases hk : k0 = k
    · subst hk
      rw [hmGet_map_replace_self, h]
      exact ⟨v, rfl⟩
    · rw [hmGet_map_replace_other _ _ _ _ hk]
      exact ⟨v0, h⟩
  · simp only [Bool.not_eq_true] at hany
    simp only [hany, Bool.false_eq_true, if_false]
    exact ⟨v0, hmGet_append_of_some h⟩

/-- `HashMap::insert` with a different key leaves a lookup unchanged. -/
theorem hmGet_hmInsert_of_ne {l : List (String × String)} {k k0 : String} (v : String)
    (hne : k0 ≠ k) : hmGet (hmInsert l k v) k0 = hmGet l k0 := by
  unfold hmInsert
  by_cases hany : (l.any fun p => p.1 == k) = true
  · simp only [hany, if_true]
    exact hmGet_map_replace_other _ _ _ _ hne
  · simp only [Bool.not_eq_true] at hany
    simp only [hany, Bool.false_eq_true, if_false]
    exact hmGet_append_single_of_ne hne

/-- The nonce key survives the caller-parameter insertion loop of
`private_request`. -/
theorem hmGet_foldl_hmInsert_isSome (params : List (String × String)) :
    ∀ (acc : List (String × String)) (v0 : String), hmGet acc "nonce" = some v0 →
      ∃ w, hmGet (params.foldl (fun acc p => hmInsert acc p.1 p.2) acc) "nonce" = some w := by
  induction params with
  | nil => exact fun _ v0 h => ⟨v0, h⟩
  | cons p t ih =>
      intro acc v0 h
      obtain ⟨w, hw⟩ := hmGet_hmInsert_isSome p.1 p.2 h
      simpa [List.foldl_cons] using ih (hmInsert acc p.1 p.2) w hw

/-- Inserting only non-body keys leaves the nonce lookup unchanged. -/
theorem hmGet_foldl_hmInsert_no_nonce (params : List (String × String))
    (hp : ∀ p ∈ params, isBodyParam p = false) :
    ∀ acc, hmGet (params.foldl (fun acc p => hmInsert acc p.1 p.2) acc) "nonce" =
      hmGet acc "nonce" := by
  induction params with
  | nil => intro _; rfl
  | cons p t ih =>
      intro acc
      have h1 : (p.1 == "nonce") = false := by
        have := hp p (by simp)
        simp only [isBodyParam, Bool.or_eq_false_iff] at this
        exact this.1
      have hne : "nonce" ≠ p.1 := fun h => by
        simp [h.symm] at h1
      have ht : ∀ q ∈ t, isBodyParam q = false := fun q hq => hp q (by simp [hq])
      calc hmGet ((p :: t).foldl (fun acc p => hmInsert acc p.1 p.2) acc) "nonce"
          = hmGet (t.foldl (fun acc p => hmInsert acc p.1 p.2) (hmInsert acc p.1 p.2)) "nonce" := by
            simp [List.foldl_cons]
        _ = hmGet (hmInsert acc p.1 p.2) "nonce" := ih ht (hmInsert acc p.1 p.2)
        _ = hmGet acc "nonce" := hmGet_hmInsert_of_ne _ hne

/-- The overwrite branch of `HashMap::insert` at a non-body key does not
change the body-parameter filter. -/
theorem filter_map_replace_not_body {k v : String} (hk : isBodyParam (k, v) = false)
    (l : List (String × String)) :
    (l.map (fun p => if p.1 == k then (k, v) else p)).filter isBodyParam =
      l.filter isBodyParam := by
  rw [replace_fn_eq]
  induction l with
  | nil => rfl
  | cons p t ih =>
      obtain ⟨a, b⟩ := p
      simp only [List.map_cons]
      by_cases hak : a = k
      · subst hak
        have hb : isBodyParam (a, b) = false := hk
        rw [if_pos rfl]
        simp [List.filter_cons, hb, hk, ih]
      · rw [if_neg hak]
        simp [List.filter_cons, ih]

/-- `HashMap::insert` at a non-body key does not change the body-parameter
filter. -/
theorem filter_hmInsert_not_body {l : List (String × String)} {k v : String}
    (hk : isBodyParam (k, v) = false) :
    (hmInsert l k v).filter isBodyParam = l.filter isBodyParam := by
  unfold hmInsert
  by_cases hany : (l.any fun p => p.1 == k) = true
  · simp only [hany, if_true]
    exact filter_map_replace_not_body hk l
  · simp only [Bool.not_eq_true] at hany
    simp only [hany, Bool.false_eq_true, if_false]
    simp [List.filter_append, List.filter_cons, hk]

/-- Inserting only non-body caller parameters leaves the signed body filter
exactly as the accumulator's. -/
theorem filter_foldl_hmInsert_no_body (params : List (String × String))
    (hp : ∀ p ∈ params, isBodyParam p = false) :
    ∀ acc, (params.foldl (fun acc p => hmInsert acc p.1 p.2) acc).filter isBodyParam =
      acc.filter isBodyParam := by
  induction params with
  | nil => intro _; rfl
  | cons p t ih =>
      intro acc
      have h1 : isBodyParam (p.1, p.2) = false := hp p (by simp)
      have ht : ∀ q ∈ t, isBodyParam q = false := fun q hq => hp q (by simp [hq])
      calc ((p :: t).foldl (fun acc p => hmInsert acc p.1 p.2) acc).filter isBodyParam
          = ((t.foldl (fun acc p => hmInsert acc p.1 p.2)
              (hmInsert acc p.1 p.2)).filter isBodyParam) := by simp [List.foldl_cons]
        _ = (hmInsert acc p.1 p.2).filter isBodyParam := ih ht (hmInsert acc p.1 p.2)
        _ = acc.filter isBodyParam := filter_hmInsert_not_body h1

theorem intercalate_singleton (s x : String) : String.intercalate s [x] = x := rfl

/-! ## The claims -/

/-- C1: `create_signature` implements the documented signing scheme — for
every URL, parameter map containing a nonce, and valid base64 secret, the
result is base64(HMAC-SHA512(key = base64-decoded secret, message = UTF-8
path bytes ++ SHA-256(nonce decimal string ++ form-url-encoded body
string))).  The witness checks the spec's Scenario 1 test vector. -/
theorem c1_create_signature_documented_scheme
    (url secret nonce : String) (params : List (String × String)) (key : List Nat)
    (hn : hmGet params "nonce" = some nonce)
    (hk : base64Decode secret = .ok key) :
    create_signature url params secret =
      .ok (base64Encode (hmacSha512 key
        (utf8 (urlPath url) ++ sha256 (utf8 (nonce ++ encodedParams params))))) := by
  simp [create_signature, hn, hk]

/-- Witness for C1: the repository's own `test_create_signature` vector —
secret `NZTR…`, path `/0/private/Balance`, nonce `1603733933254000` yields
signature `EAIo…`. -/
theorem c1_scenario1_witness :
    create_signature testUrl [("nonce", testNonce)] testSecret = .ok testSignature := by
  rw [c1_create_signature_documented_scheme testUrl testSecret testNonce
      [("nonce", testNonce)] ((base64Decode testSecret).toOption.getD []) (by decide) (by decide)]
  decide

/-- C2: on every decoded envelope whose `error` list is non-empty, each of
the seven endpoint methods reports `Errors::Kraken` (the spec's
ExchangeError) carrying the messages joined by a single space — never a
success — regardless of the `result` field. -/
theorem c2_nonempty_error_is_exchange_error (response : KrakenResponse)
    (h : response.error ≠ []) :
    Kraken.assets response = .err (.Kraken (String.intercalate " " response.error)) ∧
    Kraken.asset_pairs response = .err (.Kraken (String.intercalate " " response.error)) ∧
    Kraken.ticker response = .err (.Kraken (String.intercalate " " response.error)) ∧
    Kraken.order_book response = .err (.Kraken (String.intercalate " " response.error)) ∧
    Kraken.account_balance response = .err (.Kraken (String.intercalate " " response.error)) ∧
    Kraken.trade_balance response = .err (.Kraken (String.intercalate " " response.error)) ∧
    Kraken.open_orders response = .err (.Kraken (String.intercalate " " response.error)) := by
  have hl : response.error.length ≠ 0 := fun h0 => h (List.length_eq_zero.mp h0)
  refine ⟨?_, ?_, ?_, ?_, ?_, ?_, ?_⟩ <;>
    simp [Kraken.assets, Kraken.asset_pairs, Kraken.ticker, Kraken.order_book,
          Kraken.account_balance, Kraken.trade_balance, Kraken.open_orders,
          handleResponse, hl]

/-- Witness for C2: Scenario 2's envelope decodes to the error response, and
the endpoint methods report the exchange error even when a syntactically
valid `result` is present. -/
theorem c2_scenario2_witness :
    decodeKrakenResponse errorEnvelope =
      .ok { error := ["EGeneral:Invalid arguments"], result := none } ∧
    Kraken.assets { error := ["EGeneral:Invalid arguments"], result := none } =
      .err (.Kraken "EGeneral:Invalid arguments") ∧
    Kraken.account_balance
        { error := ["EGeneral:Invalid arguments"], result := some (.Balance []) } =
      .err (.Kraken "EGeneral:Invalid arguments") := by
  refine ⟨by decide, ?_, ?_⟩
  · exact (c2_nonempty_error_is_exchange_error _ (by decide)).1
  · exact (c2_nonempty_error_is_exchange_error _ (by decide)).2.2.2.2.1

/-- C3 (code bug): on an envelope with empty `error` and an absent or null
`result`, every endpoint method panics on `response.result.unwrap()` instead
of returning the `FormatError` the spec promises. -/
theorem c3_null_result_panics_not_format_error :
    decodeKrakenResponse nullResultEnvelope = .ok { error := [], result := none } ∧
    decodeKrakenResponse (Json.obj [("error", Json.arr [])]) =
      .ok { error := [], result := none } ∧
    Kraken.assets { error := [], result := none } =
      .panic "called Option::unwrap on a None value" ∧
    Kraken.asset_pairs { error := [], result := none } =
      .panic "called Option::unwrap on a None value" ∧
    Kraken.ticker { error := [], result := none } =
      .panic "called Option::unwrap on a None value" ∧
    Kraken.order_book { error := [], result := none } =
      .panic "called Option::unwrap on a None value" ∧
    Kraken.account_balance { error := [], result := none } =
      .panic "called Option::unwrap on a None value" ∧
    Kraken.trade_balance { error := [], result := none } =
      .panic "called Option::unwrap on a None value" ∧
    Kraken.open_orders { error := [], result := none } =
      .panic "called Option::unwrap on a None value" := by
  decide

/-- C4 (code bug): a documented decimal-string numeric field whose text does
not parse as a number makes the decoder panic (`.parse().unwrap()` in
`from_f64_option_str`, `from_f64_str_vec` and `from_tuple`) instead of
reporting the promised `FormatError`; only `from_f64_str` reports a
recoverable error. -/
theorem c4_unparseable_numeric_panics :
    (from_f64_str_vec (Json.arr [Json.str "not-a-number"])).isPanic = true ∧
    (from_f64_option_str (Json.str "not-a-number")).isPanic = true ∧
    (from_tuple (Json.arr [Json.arr [Json.str "not-a-number", Json.str "1", jint 1]])).isPanic
      = true ∧
    (decodeTicker (Json.obj [("a", Json.arr [Json.str "not-a-number"])])).isPanic = true ∧
    from_f64_str (Json.str "not-a-number") =
      .fail ("invalid float literal " ++ "not-a-number") := by
  decide

/-- A value carrying exactly the `Fees` fields is rejected by the `Info`
candidate (its required `altname` is missing). -/
theorem decodeAssetPairInfo_fees_shaped (fv : Json) (s : String) :
    decodeAssetPairInfo (Json.obj [("fees", fv), ("fee_volume_currency", Json.str s)]) =
      .fail ("missing field " ++ "altname") := by
  simp [decodeAssetPairInfo, reqField, jLookup, DResult.bind]

/-- A value carrying exactly the `Fees` fields with a well-typed fee table is
accepted by the `Fees` candidate. -/
theorem decodeAssetPairFees_fees_shaped (fv : Json) (s : String) (w : List (List F64))
    (hw : decodeVecVecF64 fv = .ok w) :
    decodeAssetPairFees (Json.obj [("fees", fv), ("fee_volume_currency", Json.str s)]) =
      .ok { fees := w, fee_volume_currency := s } := by
  simp [decodeAssetPairFees, reqField, jLookup, hw, decodeString, DResult.bind, DResult.map]

/-- A map of `Fees`-shaped entries decodes fully under the `Fees` candidate. -/
theorem decodeMapGo_fees_ok (l : List (String × Json × String))
    (h : ∀ p ∈ l, (decodeVecVecF64 p.2.1).isOk = true) :
    ∃ m, decodeMapGo decodeAssetPairFees (l.map feesPairJson) = .ok m := by
  induction l with
  | nil => exact ⟨[], rfl⟩
  | cons p t ih =>
      obtain ⟨w, hw⟩ : ∃ w, decodeVecVecF64 p.2.1 = .ok w := by
        have hp := h p (by simp)
        cases hv : decodeVecVecF64 p.2.1 with
        | ok w => exact ⟨w, rfl⟩
        | fail m => rw [hv] at hp; simp [DResult.isOk] at hp
        | panic m => rw [hv] at hp; simp [DResult.isOk] at hp
      obtain ⟨mt, hmt⟩ := ih (fun q hq => h q (by simp [hq]))
      refine ⟨(p.1, { fees := w, fee_volume_currency := p.2.2 }) :: mt, ?_⟩
      simp [List.map_cons, feesPairJson, decodeMapGo,
            decodeAssetPairFees_fees_shaped p.2.1 p.2.2 w hw, hmt, DResult.bind, DResult.map]

/-- C5 counterexample: the full `Info` payload `infoVal` also carries the
`fees` and `fee_volume_currency` fields, so both the `Info` and the `Fees`
candidates accept the same payload — acceptance is by containment of each
candidate's required fields, not by an exact field-set match. -/
theorem c5_subset_ambiguity_counterexample :
    (decodeMap decodeAssetPairInfo (Json.obj [("XXRPZUSD", infoVal)])).isOk = true ∧
    (decodeMap decodeAssetPairFees (Json.obj [("XXRPZUSD", infoVal)])).isOk = true := by
  exact ⟨by decide, by decide⟩

/-- C5 (amended): a non-empty payload mapping each pair to exactly the fields
`fees` (well-typed) and `fee_volume_currency` resolves to the `Fees` variant,
and a `margin_call`/`margin_level`-only payload to the `Margin` variant; the
discrimination comes from the fixed trial order Info, Fees, Margin with
first-match-wins — a full `Info` payload, though also acceptable to the
`Fees` candidate, resolves to `Info` because `Info` is tried first. -/
theorem c5_fees_shape_resolution_amended (pairs : List (String × Json × String))
    (h1 : pairs ≠ [])
    (h2 : ∀ p ∈ pairs, (decodeVecVecF64 p.2.1).isOk = true) :
    (decodeAssetPairs (Json.obj (pairs.map feesPairJson))).map apVariantName = .ok "Fees" ∧
    (decodeAssetPairs (Json.obj [("XXRPZUSD", marginVal)])).map apVariantName =
      .ok "Margin" ∧
    (decodeAssetPairs (Json.obj [("XXRPZUSD", infoVal)])).map apVariantName = .ok "Info" := by
  refine ⟨?_, by decide, by decide⟩
  obtain ⟨q, rest, rfl⟩ : ∃ q rest, pairs = q :: rest := by
    cases pairs with
    | nil => exact absurd rfl h1
    | cons q rest => exact ⟨q, rest, rfl⟩
  obtain ⟨m, hm⟩ := decodeMapGo_fees_ok (q :: rest) h2
  have hinfo : decodeMapGo decodeAssetPairInfo ((q :: rest).map feesPairJson) =
      .fail ("missing field " ++ "altname") := by
    simp [List.map_cons, feesPairJson, decodeMapGo,
          decodeAssetPairInfo_fees_shaped q.2.1 q.2.2, DResult.bind]
  simp only [List.map_cons] at hm hinfo
  simp [decodeAssetPairs, decodeMap, hinfo, hm, DResult.orTry, DResult.map, apVariantName]

/-- Witness for C5 at the concrete fees payload for pair `XXRPZUSD`. -/
theorem c5_fees_witness :
    (decodeAssetPairs (Json.obj
        ([("XXRPZUSD", (Json.arr [Json.arr [jint 0, jnum 26 100]], "ZUSD"))].map
          feesPairJson))).map apVariantName = .ok "Fees" ∧
    (decodeAssetPairs (Json.obj [("XXRPZUSD", marginVal)])).map apVariantName =
      .ok "Margin" ∧
    (decodeAssetPairs (Json.obj [("XXRPZUSD", infoVal)])).map apVariantName = .ok "Info" :=
  c5_fees_shape_resolution_amended
    [("XXRPZUSD", (Json.arr [Json.arr [jint 0, jnum 26 100]], "ZUSD"))]
    (List.cons_ne_nil _ _) (by decide)

/-- C6 counterexample: two parameter maps equal as maps (a permutation of the
same entries, keys distinct), each containing a nonce and an otp, yield
different signatures — the hashed body string follows the map's hidden
iteration order. -/
theorem c6_otp_order_counterexample :
    ([("nonce", testNonce), ("otp", "123456")] : List (String × String)).Perm
      [("otp", "123456"), ("nonce", testNonce)] ∧
    (([("nonce", testNonce), ("otp", "123456")] : List (String × String)).map
      Prod.fst).Nodup ∧
    create_signature testUrl [("nonce", testNonce), ("otp", "123456")] testSecret ≠
      create_signature testUrl [("otp", "123456"), ("nonce", testNonce)] testSecret := by
  refine ⟨by decide, by decide, by decide⟩

/-- C6 (amended): `create_signature` is a deterministic function of the
iteration-ordered parameter list, and when the body parameters are exactly
one nonce (no otp), the signature does not depend on the iteration order at
all: any two orderings of the same map agree. -/
theorem c6_signature_deterministic_amended (url secret n : String)
    (p1 p2 : List (String × String))
    (hperm : p1.Perm p2) (hnodup : (p1.map Prod.fst).Nodup)
    (hfilter : p1.filter isBodyParam = [("nonce", n)]) :
    create_signature url p1 secret = create_signature url p2 secret := by
  have hget : hmGet p1 "nonce" = hmGet p2 "nonce" := hmGet_perm _ hperm hnodup
  have hfilter2 : p2.filter isBodyParam = [("nonce", n)] := by
    have hp := hperm.filter isBodyParam
    rw [hfilter] at hp
    exact (List.singleton_perm.mp hp).symm
  have henc : encodedParams p1 = encodedParams p2 := by
    unfold encodedParams
    rw [hfilter, hfilter2]
  unfold create_signature
  rw [hget, henc]

/-- Witness for C6 (amended) at two orderings of the same nonce-only map. -/
theorem c6_amended_witness :
    create_signature testUrl [("a", "1"), ("nonce", testNonce)] testSecret =
      create_signature testUrl [("nonce", testNonce), ("a", "1")] testSecret :=
  c6_signature_deterministic_amended testUrl testSecret testNonce _ _
    (by decide) (by decide) (by decide)

/-- C7 counterexample: with a caller-supplied `otp`, the body string hashed
inside the signature carries the otp, but the transmitted POST body —
serialized from `PrivatePostData { nonce, otp: None }` — does not, so the
two are not byte-identical. -/
theorem c7_otp_body_mismatch_counterexample :
    (private_request testNonce testCredentials testUrl [("otp", "123456")]).map
        SignedRequest.body = .ok "nonce=1603733933254000" ∧
    encodedParams ([("otp", "123456")].foldl (fun acc p => hmInsert acc p.1 p.2)
        [("nonce", testNonce)]) = "nonce=1603733933254000&otp=123456" ∧
    ("nonce=1603733933254000&otp=123456" : String) ≠ "nonce=1603733933254000" := by
  refine ⟨by decide, by decide, by decide⟩

/-- C7 (amended): when the caller supplies no body parameters (no `otp` and
no `nonce` override), the transmitted POST body is byte-identical to the
string hashed inside the signature; a supplied `otp` or `nonce` override
enters the signature but never the transmitted body, which always carries
the generated nonce and no otp. -/
theorem c7_signed_body_matches_transmitted_amended
    (nonce : String) (creds : Credentials) (url : String)
    (params : List (String × String)) (key : List Nat)
    (hclean : ∀ p ∈ params, isBodyParam p = false)
    (hk : base64Decode creds.secret = .ok key) :
    (private_request nonce creds url params).map SignedRequest.body =
      .ok (encodedParams (params.foldl (fun acc p => hmInsert acc p.1 p.2)
        [("nonce", nonce)])) := by
  have hget : hmGet (params.foldl (fun acc p => hmInsert acc p.1 p.2)
      [("nonce", nonce)]) "nonce" = some nonce := by
    rw [hmGet_foldl_hmInsert_no_nonce params hclean]
    simp [hmGet]
  have hfil : (params.foldl (fun acc p => hmInsert acc p.1 p.2)
      [("nonce", nonce)]).filter isBodyParam = [("nonce", nonce)] := by
    rw [filter_foldl_hmInsert_no_body params hclean]
    simp [List.filter_cons, isBodyParam]
  have henc : encodedParams (params.foldl (fun acc p => hmInsert acc p.1 p.2)
      [("nonce", nonce)]) = serializeForm { nonce := nonce, otp := none } := by
    unfold encodedParams serializeForm
    rw [hfil]
    simp [intercalate_singleton]
  simp [private_request, create_signature, hget, hk, Outcome.map, henc]

/-- Witness for C7 (amended) with one non-body caller parameter. -/
theorem c7_amended_witness :
    (private_request testNonce testCredentials testUrl [("a", "1")]).map SignedRequest.body =
      .ok (encodedParams ([("a", "1")].foldl (fun acc p => hmInsert acc p.1 p.2)
        [("nonce", testNonce)])) :=
  c7_signed_body_matches_transmitted_amended testNonce testCredentials testUrl [("a", "1")]
    ((base64Decode testSecret).toOption.getD []) (by decide) (by decide)

/-- C8: on every envelope with empty `error` whose result decoded to the
`OpenOrder` variant, `open_orders` returns the map found under the `open`
wrapper key directly — the wrapper is stripped and order ids are top-level
keys of the returned map. -/
theorem c8_open_orders_returns_inner_map (response : KrakenResponse)
    (m : List (String × OpenOrder)) (he : response.error = [])
    (hr : response.result = some (.OpenOrder m)) :
    Kraken.open_orders response = .ok m := by
  simp [Kraken.open_orders, handleResponse, he, hr]

/-- Witness for C8: Scenario 4's wrapped payload decodes to the `OpenOrder`
variant and `open_orders` returns the map with `OID1` as a top-level key. -/
theorem c8_scenario4_witness :
    decodeKrakenResponse openOrdersEnvelope =
      .ok { error := [], result := some (.OpenOrder [("OID1", testOrder)]) } ∧
    Kraken.open_orders { error := [], result := some (.OpenOrder [("OID1", testOrder)]) } =
      .ok [("OID1", testOrder)] :=
  ⟨by decide, c8_open_orders_returns_inner_map _ _ rfl rfl⟩

/-- C9: a non-base64 secret makes `create_signature` — and therefore
`private_request`, before any request is built — fail with `Errors::Decode`
carrying the base64 error, while a valid-base64 secret never yields a
`Decode` failure: the signer and the request builder succeed. -/
theorem c9_decode_error_on_bad_secret (url nonce secret : String)
    (params : List (String × String)) (creds : Credentials)
    (hn : hmGet params "nonce" = some nonce) (hs : creds.secret = secret) :
    (∀ e, base64Decode secret = .error e →
        create_signature url params secret = .err (.Decode e) ∧
        ∀ nonce2 params2, private_request nonce2 creds url params2 = .err (.Decode e)) ∧
    (∀ key, base64Decode secret = .ok key →
        (∀ e, create_signature url params secret ≠ .err (.Decode e)) ∧
        ∀ nonce2 params2 e, private_request nonce2 creds url params2 ≠ .err (.Decode e)) := by
  constructor
  · intro e he
    constructor
    · simp [create_signature, hn, he]
    · intro nonce2 params2
      obtain ⟨w, hw⟩ :=
        hmGet_foldl_hmInsert_isSome params2 [("nonce", nonce2)] nonce2 (by simp [hmGet])
      simp [private_request, create_signature, hw, hs, he]
  · intro key hk
    constructor
    · intro e
      simp [create_signature, hn, hk]
    · intro nonce2 params2 e
      obtain ⟨w, hw⟩ :=
        hmGet_foldl_hmInsert_isSome params2 [("nonce", nonce2)] nonce2 (by simp [hmGet])
      simp [private_request, create_signature, hw, hs, hk]

/-- Witness for C9: an invalid secret (`####`) fails with `Decode` on both
the signer and the request builder, and the repository's valid test secret
signs successfully. -/
theorem c9_witness :
    create_signature testUrl [("nonce", testNonce)] "####" =
      .err (.Decode (.invalidByte 0 35)) ∧
    private_request testNonce { api_key := "k", secret := "####" } testUrl [] =
      .err (.Decode (.invalidByte 0 35)) ∧
    create_signature testUrl [("nonce", testNonce)] testSecret ≠
      .err (.Decode .invalidLength) := by
  have hbad := c9_decode_error_on_bad_secret testUrl testNonce "####"
      [("nonce", testNonce)] { api_key := "k", secret := "####" } (by decide) rfl
  have hgood := c9_decode_error_on_bad_secret testUrl testNonce testSecret
      [("nonce", testNonce)] testCredentials (by decide) rfl
  obtain ⟨h1, h2⟩ := hbad.1 (.invalidByte 0 35) (by decide)
  exact ⟨h1, h2 testNonce [],
    (hgood.2 ((base64Decode testSecret).toOption.getD []) (by decide)).1 .invalidLength⟩

/-- C10: an empty-object result resolves to the first untagged candidate,
the `Assets` variant (with an empty map), so on an envelope with empty
`error` and `{}` as result every endpoint except `assets` reports
`InvalidFormat` instead of an empty success map. -/
theorem c10_empty_object_is_assets_variant (m : List (String × Asset)) :
    decodeResponses (Json.obj []) = .ok (.Assets []) ∧
    decodeKrakenResponse emptyObjectEnvelope =
      .ok { error := [], result := some (.Assets []) } ∧
    Kraken.asset_pairs { error := [], result := some (.Assets m) } = .err .InvalidFormat ∧
    Kraken.ticker { error := [], result := some (.Assets m) } = .err .InvalidFormat ∧
    Kraken.order_book { error := [], result := some (.Assets m) } = .err .InvalidFormat ∧
    Kraken.account_balance { error := [], result := some (.Assets m) } =
      .err .InvalidFormat ∧
    Kraken.trade_balance { error := [], result := some (.Assets m) } = .err .InvalidFormat ∧
    Kraken.open_orders { error := [], result := some (.Assets m) } = .err .InvalidFormat := by
  refine ⟨by decide, by decide, ?_, ?_, ?_, ?_, ?_, ?_⟩ <;>
    simp [Kraken.asset_pairs, Kraken.ticker, Kraken.order_book, Kraken.account_balance,
          Kraken.trade_balance, Kraken.open_orders, handleResponse]

/-- Witness for C10 at the empty assets map. -/
theorem c10_witness :
    Kraken.account_balance { error := [], result := some (.Assets []) } =
      .err .InvalidFormat :=
  (c10_empty_object_is_assets_variant []).2.2.2.2.2.1

end KrakenApi
